import Mathlib

/-!
Verification of the photo-library-compressor repository (`src/photos.py`,
`src/main.py`) against its specification.

The embedding models:
  * file contents as byte lists, and a filesystem as a partial map from
    path strings to contents;
  * the lossy encoder as an oracle `enc : Int → Content` giving, for each
    quality setting, the bytes that `img.save(..., quality=...)` would write
    for the image at hand (the encoder is deterministic given the image and
    the quality);
  * wall-clock timeout checks as an oracle `timedOutAt : Nat → Bool` telling
    whether `time.perf_counter() - start_time > timeout_seconds` held when the
    check after loop iteration `i` ran;
  * Python floats for sizes in megabytes as exact rationals (all the
    arithmetic performed on them — division by 1024*1024, comparison,
    multiplication by 1024*1024 and truncation — is exact in the ranges the
    program uses);
  * the quality-search `while True:` loop by a fuel-indexed recursion;
    `none` means the loop did not finish within the given number of
    iterations, so statements about actual runs supply sufficient fuel.
-/

/-- File contents are byte lists; `os.path.getsize` of a written file is the
length of its content. -/
abbrev Content := List Nat

/-- A filesystem: paths to optional contents. -/
abbrev Fs := String → Option Content

/-- Writing a file at a path (PIL `img.save`, the target of `shutil.copy2`
and of `shutil.move`), overwriting any previous content. -/
def fsWrite (fs : Fs) (p : String) (c : Content) : Fs :=
  fun q => if q = p then some c else fs q

/-- Removing a file at a path (the source side of `shutil.move`). -/
def fsErase (fs : Fs) (p : String) : Fs :=
  fun q => if q = p then none else fs q

/-- `os.path.join a b` for a relative second component. -/
def joinPath (a b : String) : String := a ++ "/" ++ b

/-- `os.path.basename`: the part of the path after the last `/`. -/
def basename (p : String) : String :=
  String.mk (p.data.foldl (fun acc ch => if ch = '/' then [] else acc ++ [ch]) [])

/-- Python `int()` applied to a (here: rational-valued) float: truncation
toward zero, as in `int(target_size_mb * 1024 * 1024)`. -/
def pyInt (q : ℚ) : Int :=
  if 0 ≤ q then ((q.num.toNat / q.den : Nat) : Int)
  else -(((-q.num).toNat / q.den : Nat) : Int)

/-- One row of the inspection DataFrame built by `inspect_library`
(src/photos.py).  `gpsLatitude = none` models a `GPS_GPSLatitude` entry that
is `pd.NA`/missing (`_is_missing_gps` returns True exactly there). -/
structure ImageRecord where
  imagePath : String
  gpsLatitude : Option ℚ
  sizeBytes : Nat
  deriving DecidableEq

/-- The `image_size_mb` column: `os.path.getsize(path) / (1024 * 1024)`. -/
def sizeMB (r : ImageRecord) : ℚ := (r.sizeBytes : ℚ) / (1024 * 1024)

/-- `_is_missing_gps` (src/photos.py lines 187-193): `None` and scalar
`pd.NA`/NaN count as missing; both are modelled by `none`. -/
def is_missing_gps (v : Option ℚ) : Bool := v.isNone

/-- The quality-search loop of `_process_photo` (src/photos.py lines
126-146).  Arguments: `sz q` is the byte size of the file the encoder writes
at quality `q`; `timedOutAt i` is the elapsed-time check after iteration `i`;
then the loop state `quality`, the iteration counter, and fuel.  Returns the
list of qualities at which an encode (`img.save`) was performed, the quality
of the last encode, and the `exceeded_timeout` flag; `none` if the fuel ran
out before the loop exited. -/
def processPhotoLoop (sz : Int → Nat) (timedOutAt : Nat → Bool)
    (target_size_bytes min_quality quality_step : Int) :
    Int → Nat → Nat → Option (List Int × Int × Bool)
  | _, _, 0 => none
  | quality, iter, fuel + 1 =>
    if (sz quality : Int) ≤ target_size_bytes ∨ quality ≤ min_quality then
      some ([quality], quality, false)
    else if timedOutAt iter then
      some ([quality], quality, true)
    else
      match processPhotoLoop sz timedOutAt target_size_bytes min_quality quality_step
          (quality - quality_step) (iter + 1) fuel with
      | none => none
      | some (qs, fq, t) => some (quality :: qs, fq, t)

/-- `_process_photo` (src/photos.py lines 87-155), as a filesystem
transformer together with the returned `exceeded_timeout` flag.  If the
source cannot be opened, the fallback single-shot encode also fails on the
same missing file, and both exceptions are swallowed: the filesystem is
unchanged and the flag is False.  Otherwise the quality-search loop runs; the
file left at `output_path` is the encode at the last quality the loop saved.
A `none` from the loop (insufficient fuel) leaves the model state unchanged;
theorems about completed runs supply enough fuel for the loop to exit. -/
def _process_photo (fs : Fs) (image_path output_path : String)
    (target_size_mb : ℚ) (min_quality quality_step : Int)
    (enc : Int → Content) (timedOutAt : Nat → Bool) (fuel : Nat) : Fs × Bool :=
  match fs image_path with
  | none => (fs, false)
  | some _ =>
    match processPhotoLoop (fun q => (enc q).length) timedOutAt
        (pyInt (target_size_mb * 1024 * 1024)) min_quality quality_step 95 0 fuel with
    | some (_, fq, t) => (fsWrite fs output_path (enc fq), t)
    | none => (fs, false)

/-- The destination computation shared by `_copy_photo_task` (lines 205-208)
and `_process_photo_task` (lines 232-235): the bucket depends only on
GPS-latitude presence. -/
def taskDestination (image_path : String) (gps_lat : Option ℚ)
    (output_dir missing_locations_dir : String) : String :=
  if is_missing_gps gps_lat then joinPath missing_locations_dir (basename image_path)
  else joinPath output_dir (basename image_path)

/-- What one per-image task returns to `process_library`. -/
structure TaskOut where
  fs : Fs
  destination : String
  compression_time : ℚ
  exceeded_timeout : Bool

/-- `_copy_photo_task` (src/photos.py lines 196-215): compute the bucket
destination, `shutil.copy2` the original there (an I/O failure — here: a
missing source — is swallowed), and report time 0 and no timeout. -/
def _copy_photo_task (fs : Fs) (image_path : String) (gps_lat : Option ℚ)
    (output_dir missing_locations_dir : String) : TaskOut :=
  let destination := taskDestination image_path gps_lat output_dir missing_locations_dir
  let fs1 :=
    match fs image_path with
    | none => fs
    | some c => fsWrite fs destination c
  { fs := fs1, destination := destination, compression_time := 0,
    exceeded_timeout := false }

/-- `_process_photo_task` (src/photos.py lines 218-260): compute the bucket
destination, run `_process_photo` targeting it, and on `exceeded_timeout`
move the partially compressed file to `problem-photos/<basename>` and copy
the original source to the destination (the `try`/`except: pass` swallows a
failing move — modelled by a missing destination file — after which the copy
does not run, and a failing copy after a successful move).
`compression_time` is the wall-clock measurement, supplied as an oracle. -/
def _process_photo_task (fs : Fs) (image_path : String) (gps_lat : Option ℚ)
    (output_dir missing_locations_dir : String) (target_size_mb : ℚ)
    (min_quality quality_step : Int) (problem_photos_dir : String)
    (enc : Int → Content) (timedOutAt : Nat → Bool) (fuel : Nat)
    (compression_time : ℚ) : TaskOut :=
  let destination := taskDestination image_path gps_lat output_dir missing_locations_dir
  let res := _process_photo fs image_path destination target_size_mb min_quality
    quality_step enc timedOutAt fuel
  let finalFs :=
    if res.2 then
      let problem_photo_destination := joinPath problem_photos_dir (basename image_path)
      match res.1 destination with
      | none => res.1
      | some compressed =>
        let fs2 := fsErase (fsWrite res.1 problem_photo_destination compressed) destination
        match fs2 image_path with
        | none => fs2
        | some original => fsWrite fs2 destination original
    else res.1
  { fs := finalFs, destination := destination, compression_time := compression_time,
    exceeded_timeout := res.2 }

/-- The running state of `process_library`: the filesystem plus the two
path-keyed result dicts.  A Python dict assignment is modelled by consing, so
the most recent assignment for a key is the first match. -/
structure RunState where
  fs : Fs
  compression_times : List (String × ℚ)
  exceeded_timeout_flags : List (String × Bool)

/-- Dict lookup: the value of the most recent assignment to the key. -/
def dget {α : Type} (m : List (String × α)) (k : String) : Option α :=
  (m.find? (fun e => decide (e.1 = k))).map (fun e => e.2)

/-- Record one task's outcome in the two dicts (src/photos.py lines 309-310
and 333-334). -/
def recordTask (st : RunState) (out : TaskOut) : RunState :=
  { fs := out.fs
    compression_times := (out.destination, out.compression_time) :: st.compression_times
    exceeded_timeout_flags := (out.destination, out.exceeded_timeout) :: st.exceeded_timeout_flags }

/-- The copy phase of `process_library` (lines 294-310): run
`_copy_photo_task` on each already-compliant record in order. -/
def runCopyTasks (output_dir missing_locations_dir : String) :
    List ImageRecord → RunState → RunState
  | [], st => st
  | r :: rest, st =>
    runCopyTasks output_dir missing_locations_dir rest
      (recordTask st (_copy_photo_task st.fs r.imagePath r.gpsLatitude output_dir
        missing_locations_dir))

/-- The compression phase of `process_library` (lines 313-334): run
`_process_photo_task` on each oversized record in order.  `enc`, `timedOutAt`
and `elapsedOf` are per-image oracles, keyed by source path. -/
def runCompressTasks (output_dir missing_locations_dir problem_photos_dir : String)
    (target_size_mb : ℚ) (min_quality quality_step : Int)
    (enc : String → Int → Content) (timedOutAt : String → Nat → Bool)
    (elapsedOf : String → ℚ) (fuel : Nat) :
    List ImageRecord → RunState → RunState
  | [], st => st
  | r :: rest, st =>
    runCompressTasks output_dir missing_locations_dir problem_photos_dir target_size_mb
      min_quality quality_step enc timedOutAt elapsedOf fuel rest
      (recordTask st (_process_photo_task st.fs r.imagePath r.gpsLatitude output_dir
        missing_locations_dir target_size_mb min_quality quality_step problem_photos_dir
        (enc r.imagePath) (timedOutAt r.imagePath) fuel (elapsedOf r.imagePath)))

/-- `process_library` (src/photos.py lines 263-336) over an already-inspected
record list.  On an input with no enumerated images, `inspect_library`
returns an empty DataFrame with no columns, and the partition
`metadata["image_size_mb"] <= target_size_mb` at line 287 raises `KeyError`;
this is modelled by the `Except.error` branch.  Otherwise the records are
partitioned exactly as at lines 287-288 and the two phases run in order. -/
def process_library (fs0 : Fs) (records : List ImageRecord) (output_dir : String)
    (target_size_mb : ℚ) (min_quality quality_step : Int)
    (enc : String → Int → Content) (timedOutAt : String → Nat → Bool)
    (elapsedOf : String → ℚ) (fuel : Nat) : Except String RunState :=
  if records.isEmpty then
    Except.error "KeyError: image_size_mb"
  else
    let missing_locations_dir := joinPath output_dir "missing-locations"
    let problem_photos_dir := joinPath output_dir "problem-photos"
    let already_compliant := records.filter (fun r => decide (sizeMB r ≤ target_size_mb))
    let needs_compression := records.filter (fun r => decide (target_size_mb < sizeMB r))
    let st1 := runCopyTasks output_dir missing_locations_dir already_compliant
      ⟨fs0, [], []⟩
    let st2 := runCompressTasks output_dir missing_locations_dir problem_photos_dir
      target_size_mb min_quality quality_step enc timedOutAt elapsedOf fuel
      needs_compression st1
    Except.ok st2

/-- A record's bucket destination for given output and missing-locations
directories. -/
def destinationOf (output_dir missing_locations_dir : String) (r : ImageRecord) : String :=
  taskDestination r.imagePath r.gpsLatitude output_dir missing_locations_dir

/-- The bucket destination `process_library` hands a record's task, with
`missing_locations_dir = <output_dir>/missing-locations` (lines 276, 298-300,
317-319). -/
def bucketDest (output_dir : String) (r : ImageRecord) : String :=
  destinationOf output_dir (joinPath output_dir "missing-locations") r

/-- The problem-photos destination a record's timeout fallback would use
(lines 249-251 with `problem_photos_dir = <output_dir>/problem-photos`). -/
def problemDestOf (output_dir : String) (r : ImageRecord) : String :=
  joinPath (joinPath output_dir "problem-photos") (basename r.imagePath)

/-- `_get_image_metadata` (src/photos.py lines 55-75) reduced to its
interface: an oracle giving the flattened EXIF tag dict for a path, or `none`
when EXIF is absent, unreadable, or the format is unsupported (every
exception path of the function returns `None`). -/
def _get_image_metadata (meta : String → Option (List (String × ℚ)))
    (image_path : String) : Option (List (String × ℚ)) :=
  meta image_path

/-- `_get_image_metadata_with_size` (src/photos.py lines 78-84): take the tag
dict (or `{}` when extraction returned `None`), record the path and the file
size, and mark `GPS_GPSLatitude` as `pd.NA` (here `none`) when the key is
absent. -/
def _get_image_metadata_with_size (meta : String → Option (List (String × ℚ)))
    (getsize : String → Nat) (image_path : String) : ImageRecord :=
  let m := (_get_image_metadata meta image_path).getD []
  { imagePath := image_path
    gpsLatitude := (m.find? (fun e => decide (e.1 = "GPS_GPSLatitude"))).map (fun e => e.2)
    sizeBytes := getsize image_path }

/-- `inspect_library` (src/photos.py lines 158-184) over the file list that
`_find_all_images` enumerated.  `sampler` models `random.sample`: any
function returning a selection of the requested length (the claims'
length facts hold for every such sampler).  A positive `sample_size` is
first clamped to the number of files; a non-positive or absent one leaves
the enumeration untouched (line 167: `sample_size is not None and
sample_size > 0`).  Every path yields a record (the metadata helper never
returns `None`), so the table has one row per surviving path. -/
def inspect_library (files : List String)
    (sampler : List String → Nat → List String)
    (meta : String → Option (List (String × ℚ))) (getsize : String → Nat)
    (sample_size : Option Int) : List ImageRecord :=
  let image_paths :=
    match sample_size with
    | some s => if 0 < s then sampler files (min s.toNat files.length) else files
    | none => files
  image_paths.map (_get_image_metadata_with_size meta getsize)

/-- The parameter names of `inspect_library` (src/photos.py lines 158-162). -/
def inspect_library_params : List String := ["dir", "show_progress", "sample_size"]

/-- The parameter names of `process_library` (src/photos.py lines 263-271). -/
def process_library_params : List String :=
  ["input_dir", "output_dir", "target_size_mb", "min_quality", "quality_step",
   "sample_size", "processing_timeout_seconds"]

/-- Python keyword-argument binding: a call raises `TypeError` before the
callee body runs when some passed keyword is not among the callee's
parameters. -/
def checkKeywords (fname : String) (params kwargs : List String) : Except String Unit :=
  match kwargs.find? (fun k => !params.contains k) with
  | some k => Except.error ("TypeError: " ++ fname ++ "() got an unexpected keyword argument " ++ k)
  | none => Except.ok ()

/-- `main` from src/main.py (lines 18-55), at the granularity of its calls
into photos.py, each preceded by the keyword binding Python performs.  The
keyword lists are exactly those written at the call sites (lines 19-21,
28-37, 41-43).  A binding failure aborts `main` before the callee — and
everything after it — runs, so a `TypeError` from the first call means no
image was inspected or processed. -/
def main_model : Except String Unit := do
  checkKeywords "inspect_library" inspect_library_params ["parallel", "sample_size"]
  checkKeywords "process_library" process_library_params
    ["parallel", "max_workers", "target_size_mb", "min_quality", "quality_step", "sample_size"]
  checkKeywords "inspect_library" inspect_library_params ["parallel", "sample_size"]
  Except.ok ()

/-! ### Basic lemmas about the filesystem and dict models -/

theorem fsWrite_self (fs : Fs) (p : String) (c : Content) : fsWrite fs p c p = some c := by
  simp [fsWrite]

theorem fsWrite_ne (fs : Fs) (p q : String) (c : Content) (h : q ≠ p) :
    fsWrite fs p c q = fs q := by
  simp [fsWrite, h]

theorem fsErase_ne (fs : Fs) (p q : String) (h : q ≠ p) : fsErase fs p q = fs q := by
  simp [fsErase, h]

theorem dget_cons_self {α : Type} (m : List (String × α)) (k : String) (v : α) :
    dget ((k, v) :: m) k = some v := by
  simp [dget]

theorem dget_cons_ne {α : Type} (m : List (String × α)) (k k' : String) (v : α)
    (h : k' ≠ k) : dget ((k', v) :: m) k = dget m k := by
  simp [dget, List.find?_cons, h]

/-! ### Lemmas about the quality-search loop -/

theorem processPhotoLoop_head (sz : Int → Nat) (timedOutAt : Nat → Bool)
    (tb mq st : Int) (fuel : Nat) (q : Int) (iter : Nat) (l : List Int) (fq : Int)
    (t : Bool) (h : processPhotoLoop sz timedOutAt tb mq st q iter fuel = some (l, fq, t)) :
    ∃ rest, l = q :: rest := by
  cases fuel with
  | zero => simp [processPhotoLoop] at h
  | succ n =>
    simp only [processPhotoLoop] at h
    split at h
    · simp only [Option.some.injEq, Prod.mk.injEq] at h
      exact ⟨[], h.1.symm⟩
    · split at h
      · simp only [Option.some.injEq, Prod.mk.injEq] at h
        exact ⟨[], h.1.symm⟩
      · split at h
        · exact absurd h (by simp)
        · rename_i qs fq' t' heq
          simp only [Option.some.injEq, Prod.mk.injEq] at h
          exact ⟨qs, h.1.symm⟩

theorem processPhotoLoop_exit (sz : Int → Nat) (timedOutAt : Nat → Bool)
    (tb mq st : Int) (fuel : Nat) :
    ∀ (q : Int) (iter : Nat) (l : List Int) (fq : Int),
      processPhotoLoop sz timedOutAt tb mq st q iter fuel = some (l, fq, false) →
      ((sz fq : Int) ≤ tb ∨ fq ≤ mq) := by
  induction fuel with
  | zero => intro q iter l fq h; simp [processPhotoLoop] at h
  | succ n ih =>
    intro q iter l fq h
    simp only [processPhotoLoop] at h
    split at h
    · rename_i hcond
      simp only [Option.some.injEq, Prod.mk.injEq] at h
      exact h.2.1 ▸ hcond
    · split at h
      · simp only [Option.some.injEq, Prod.mk.injEq] at h
        exact absurd h.2.2 (by simp)
      · split at h
        · exact absurd h (by simp)
        · rename_i qs fq' t' heq
          simp only [Option.some.injEq, Prod.mk.injEq] at h
          obtain ⟨-, h2, h3⟩ := h
          exact ih _ _ _ _ (by rw [h2, h3] at heq; exact heq)

theorem processPhotoLoop_seq (sz : Int → Nat) (timedOutAt : Nat → Bool)
    (tb mq st : Int) (fuel : Nat) :
    ∀ (q : Int) (iter : Nat) (l : List Int) (fq : Int) (t : Bool),
      processPhotoLoop sz timedOutAt tb mq st q iter fuel = some (l, fq, t) →
      l = (List.range l.length).map (fun k : Nat => q - (k : Int) * st) := by
  induction fuel with
  | zero => intro q iter l fq t h; simp [processPhotoLoop] at h
  | succ n ih =>
    intro q iter l fq t h
    simp only [processPhotoLoop] at h
    split at h
    · simp only [Option.some.injEq, Prod.mk.injEq] at h
      obtain ⟨h1, -, -⟩ := h
      subst h1
      simp [List.range_succ]
    · split at h
      · simp only [Option.some.injEq, Prod.mk.injEq] at h
        obtain ⟨h1, -, -⟩ := h
        subst h1
        simp [List.range_succ]
      · split at h
        · exact absurd h (by simp)
        · rename_i qs fq' t' heq
          simp only [Option.some.injEq, Prod.mk.injEq] at h
          obtain ⟨h1, -, -⟩ := h
          subst h1
          have htail := ih _ _ _ _ _ heq
          conv_rhs => rw [List.length_cons, List.range_succ_eq_map, List.map_cons,
            List.map_map]
          congr 1
          · simp
          · conv_lhs => rw [htail]
            apply List.map_congr_left
            intro k hk
            simp only [Function.comp_apply]
            push_cast
            ring

theorem processPhotoLoop_above (sz : Int → Nat) (timedOutAt : Nat → Bool)
    (tb mq st : Int) (fuel : Nat) :
    ∀ (q : Int) (iter : Nat) (l : List Int) (fq : Int) (t : Bool),
      processPhotoLoop sz timedOutAt tb mq st q iter fuel = some (l, fq, t) →
      ∀ x ∈ l, x = q ∨ mq - st < x := by
  induction fuel with
  | zero => intro q iter l fq t h; simp [processPhotoLoop] at h
  | succ n ih =>
    intro q iter l fq t h
    simp only [processPhotoLoop] at h
    split at h
    · simp only [Option.some.injEq, Prod.mk.injEq] at h
      obtain ⟨h1, -, -⟩ := h
      subst h1
      intro x hx
      simp at hx
      exact Or.inl hx
    · split at h
      · simp only [Option.some.injEq, Prod.mk.injEq] at h
        obtain ⟨h1, -, -⟩ := h
        subst h1
        intro x hx
        simp at hx
        exact Or.inl hx
      · split at h
        · exact absurd h (by simp)
        · rename_i qs fq' t' heq
          rename_i hnotdone _
          simp only [Option.some.injEq, Prod.mk.injEq] at h
          obtain ⟨h1, -, -⟩ := h
          subst h1
          intro x hx
          simp only [List.mem_cons] at hx
          rcases hx with rfl | hx
          · exact Or.inl rfl
          · rcases ih _ _ _ _ _ heq x hx with rfl | hlt
            · right
              push_neg at hnotdone
              omega
            · exact Or.inr hlt

theorem processPhotoLoop_chain (sz : Int → Nat) (timedOutAt : Nat → Bool)
    (tb mq st : Int) (hst : 1 ≤ st) (fuel : Nat) :
    ∀ (q : Int) (iter : Nat) (l : List Int) (fq : Int) (t : Bool),
      processPhotoLoop sz timedOutAt tb mq st q iter fuel = some (l, fq, t) →
      List.Chain' (fun a b => b < a) l := by
  induction fuel with
  | zero => intro q iter l fq t h; simp [processPhotoLoop] at h
  | succ n ih =>
    intro q iter l fq t h
    simp only [processPhotoLoop] at h
    split at h
    · simp only [Option.some.injEq, Prod.mk.injEq] at h
      obtain ⟨h1, -, -⟩ := h
      subst h1
      simp
    · split at h
      · simp only [Option.some.injEq, Prod.mk.injEq] at h
        obtain ⟨h1, -, -⟩ := h
        subst h1
        simp
      · split at h
        · exact absurd h (by simp)
        · rename_i qs fq' t' heq
          simp only [Option.some.injEq, Prod.mk.injEq] at h
          obtain ⟨h1, -, -⟩ := h
          subst h1
          have htail := ih _ _ _ _ _ heq
          obtain ⟨rest, hrest⟩ := processPhotoLoop_head sz timedOutAt tb mq st
            n (q - st) (iter + 1) qs fq' t' heq
          subst hrest
          exact htail.cons (by omega)

theorem processPhotoLoop_total (sz : Int → Nat) (timedOutAt : Nat → Bool)
    (tb mq st : Int) (hst : 1 ≤ st) (fuel : Nat) :
    ∀ (q : Int) (iter : Nat), (q - mq).toNat + 1 ≤ fuel →
      (processPhotoLoop sz timedOutAt tb mq st q iter fuel).isSome := by
  induction fuel with
  | zero => intro q iter hfuel; omega
  | succ n ih =>
    intro q iter hfuel
    simp only [processPhotoLoop]
    split
    · simp
    · split
      · simp
      · rename_i hnotdone _
        push_neg at hnotdone
        have : (q - st - mq).toNat + 1 ≤ n := by omega
        have hrec := ih (q - st) (iter + 1) this
        split
        · rename_i heq
          rw [heq] at hrec
          simp at hrec
        · simp

theorem processPhotoLoop_stuck (sz : Int → Nat) (tb mq : Int) (q : Int)
    (hsize : ¬ ((sz q : Int) ≤ tb)) (hq : ¬ (q ≤ mq)) :
    ∀ (fuel iter : Nat),
      processPhotoLoop sz (fun _ => false) tb mq 0 q iter fuel = none := by
  intro fuel
  induction fuel with
  | zero => intro iter; simp [processPhotoLoop]
  | succ n ih =>
    intro iter
    simp only [processPhotoLoop]
    rw [if_neg (by tauto)]
    simp only [Bool.false_eq_true, if_false]
    rw [sub_zero, ih (iter + 1)]
/-! ### Helpers connecting the loop to `_process_photo` -/

theorem pyInt_tiny : pyInt ((1 / 1048576 : ℚ) * 1024 * 1024) = 1 := by
  have h : ((1 / 1048576 : ℚ) * 1024 * 1024) = 1 := by norm_num
  rw [h, pyInt]
  norm_num

theorem _process_photo_of_loop (fs : Fs) (image_path output_path : String)
    (target_size_mb : ℚ) (min_quality quality_step : Int) (enc : Int → Content)
    (timedOutAt : Nat → Bool) (fuel : Nat) (c : Content) (l : List Int) (fq : Int)
    (t : Bool)
    (hsrc : fs image_path = some c)
    (hloop : processPhotoLoop (fun q => (enc q).length) timedOutAt
      (pyInt (target_size_mb * 1024 * 1024)) min_quality quality_step 95 0 fuel
      = some (l, fq, t)) :
    _process_photo fs image_path output_path target_size_mb min_quality quality_step
      enc timedOutAt fuel = (fsWrite fs output_path (enc fq), t) := by
  unfold _process_photo
  rw [hsrc, hloop]

/-! ### Claims C1, C3, C7: the quality-search loop -/

/-- C1 (amended): if `_process_photo`'s quality-search loop completes without
a timeout and without an exception (the source is readable and the loop
exits with `exceeded_timeout = false`), the file written at the destination
is the encode at the last quality `fq`, and its size is at most
`int(target_size_mb * 1024 * 1024)` or `fq ≤ min_quality`.  The original
claim's "equals `min_quality`" is false: the last quality can undershoot
`min_quality` when `quality_step` does not divide `95 - min_quality` (see the
counterexample). -/
theorem c1_theorem (fs : Fs) (image_path output_path : String)
    (target_size_mb : ℚ) (min_quality quality_step : Int) (enc : Int → Content)
    (timedOutAt : Nat → Bool) (fuel : Nat) (c : Content) (l : List Int) (fq : Int)
    (hsrc : fs image_path = some c)
    (hloop : processPhotoLoop (fun q => (enc q).length) timedOutAt
      (pyInt (target_size_mb * 1024 * 1024)) min_quality quality_step 95 0 fuel
      = some (l, fq, false)) :
    (_process_photo fs image_path output_path target_size_mb min_quality quality_step
        enc timedOutAt fuel).2 = false
    ∧ (_process_photo fs image_path output_path target_size_mb min_quality quality_step
        enc timedOutAt fuel).1 output_path = some (enc fq)
    ∧ (((enc fq).length : Int) ≤ pyInt (target_size_mb * 1024 * 1024)
        ∨ fq ≤ min_quality) := by
  have heq := _process_photo_of_loop fs image_path output_path target_size_mb
    min_quality quality_step enc timedOutAt fuel c l fq false hsrc hloop
  rw [heq]
  exact ⟨rfl, fsWrite_self fs output_path (enc fq),
    processPhotoLoop_exit (fun q => (enc q).length) timedOutAt
      (pyInt (target_size_mb * 1024 * 1024)) min_quality quality_step fuel
      95 0 l fq hloop⟩

/-- C1, counterexample to the claim as stated: with `target_size_mb =
1/1048576` (so `int(target * 1024 * 1024) = 1`), `min_quality = 52`,
`quality_step = 5`, an encoder always producing 2-byte output and a clock
that never times out, the loop completes without timeout after encoding at
95, 90, …, 55, 50; the written file has size 2 > 1 and the last quality is
50 ≠ 52, so neither disjunct of the claim holds. -/
theorem c1_counterexample :
    pyInt ((1 / 1048576 : ℚ) * 1024 * 1024) = 1
    ∧ processPhotoLoop (fun _ => 2) (fun _ => false) 1 52 5 95 0 30
        = some ([95, 90, 85, 80, 75, 70, 65, 60, 55, 50], 50, false)
    ∧ (_process_photo (fun p => if p = "photos/a.jpg" then some [9, 9] else none)
        "photos/a.jpg" "out/a.jpg" (1 / 1048576) 52 5 (fun _ => [9, 9])
        (fun _ => false) 30).2 = false
    ∧ (_process_photo (fun p => if p = "photos/a.jpg" then some [9, 9] else none)
        "photos/a.jpg" "out/a.jpg" (1 / 1048576) 52 5 (fun _ => [9, 9])
        (fun _ => false) 30).1 "out/a.jpg" = some [9, 9]
    ∧ ¬ ((([9, 9] : Content).length : Int) ≤ 1 ∨ (50 : Int) = 52) := by
  have hsrc : (fun p => if p = "photos/a.jpg" then some ([9, 9] : Content) else none)
      "photos/a.jpg" = some [9, 9] := by decide
  have hloop : processPhotoLoop (fun q => (((fun (_ : Int) => ([9, 9] : Content)) q)).length)
      (fun _ => false) (pyInt ((1 / 1048576 : ℚ) * 1024 * 1024)) 52 5 95 0 30
      = some ([95, 90, 85, 80, 75, 70, 65, 60, 55, 50], 50, false) := by
    rw [pyInt_tiny]; decide
  have heq := _process_photo_of_loop
    (fun p => if p = "photos/a.jpg" then some [9, 9] else none) "photos/a.jpg"
    "out/a.jpg" (1 / 1048576) 52 5 (fun _ => [9, 9]) (fun _ => false) 30
    [9, 9] [95, 90, 85, 80, 75, 70, 65, 60, 55, 50] 50 false hsrc hloop
  refine ⟨pyInt_tiny, by decide, ?_, ?_, by decide⟩
  · rw [heq]
  · rw [heq]
    simp [fsWrite]

/-- C1, witness for the amended theorem at a concrete input. -/
theorem c1_witness :
    (fun p => if p = "photos/b.jpg" then some ([9, 9] : Content) else none)
        "photos/b.jpg" = some [9, 9]
    ∧ processPhotoLoop (fun q => (((fun (_ : Int) => ([9, 9] : Content)) q)).length)
        (fun _ => false) (pyInt ((1 / 1048576 : ℚ) * 1024 * 1024)) 52 5 95 0 30
        = some ([95, 90, 85, 80, 75, 70, 65, 60, 55, 50], 50, false)
    ∧ ((_process_photo (fun p => if p = "photos/b.jpg" then some [9, 9] else none)
          "photos/b.jpg" "out/b.jpg" (1 / 1048576) 52 5 (fun _ => [9, 9])
          (fun _ => false) 30).2 = false
      ∧ (_process_photo (fun p => if p = "photos/b.jpg" then some [9, 9] else none)
          "photos/b.jpg" "out/b.jpg" (1 / 1048576) 52 5 (fun _ => [9, 9])
          (fun _ => false) 30).1 "out/b.jpg" = some [9, 9]
      ∧ ((([9, 9] : Content).length : Int) ≤ pyInt ((1 / 1048576 : ℚ) * 1024 * 1024)
          ∨ (50 : Int) ≤ 52)) := by
  have hsrc : (fun p => if p = "photos/b.jpg" then some ([9, 9] : Content) else none)
      "photos/b.jpg" = some [9, 9] := by decide
  have hloop : processPhotoLoop (fun q => (((fun (_ : Int) => ([9, 9] : Content)) q)).length)
      (fun _ => false) (pyInt ((1 / 1048576 : ℚ) * 1024 * 1024)) 52 5 95 0 30
      = some ([95, 90, 85, 80, 75, 70, 65, 60, 55, 50], 50, false) := by
    rw [pyInt_tiny]; decide
  exact ⟨hsrc, hloop, c1_theorem
    (fun p => if p = "photos/b.jpg" then some [9, 9] else none) "photos/b.jpg"
    "out/b.jpg" (1 / 1048576) 52 5 (fun _ => [9, 9]) (fun _ => false) 30
    [9, 9] [95, 90, 85, 80, 75, 70, 65, 60, 55, 50] 50 hsrc hloop⟩

/-- C3 (amended): with `quality_step ≥ 1`, the sequence of qualities at
which the quality-search loop performs encodes is the arithmetic sequence
95, 95−step, 95−2·step, …, hence strictly decreasing; and every encode is
either the initial one at 95 or at a quality strictly above
`min_quality − quality_step`.  The original claim's "no encode is ever
performed at a quality below min_quality" is false: when `quality_step` does
not divide `95 − min_quality` the final encode is strictly below
`min_quality` (see the counterexample). -/
theorem c3_theorem (sz : Int → Nat) (timedOutAt : Nat → Bool)
    (target_size_bytes min_quality quality_step : Int) (iter fuel : Nat)
    (l : List Int) (fq : Int) (t : Bool)
    (hst : 1 ≤ quality_step)
    (hloop : processPhotoLoop sz timedOutAt target_size_bytes min_quality quality_step
      95 iter fuel = some (l, fq, t)) :
    l = (List.range l.length).map (fun k : Nat => 95 - (k : Int) * quality_step)
    ∧ List.Chain' (fun a b => b < a) l
    ∧ ∀ x ∈ l, x = 95 ∨ min_quality - quality_step < x :=
  ⟨processPhotoLoop_seq sz timedOutAt target_size_bytes min_quality quality_step
      fuel 95 iter l fq t hloop,
   processPhotoLoop_chain sz timedOutAt target_size_bytes min_quality quality_step
      hst fuel 95 iter l fq t hloop,
   processPhotoLoop_above sz timedOutAt target_size_bytes min_quality quality_step
      fuel 95 iter l fq t hloop⟩

/-- C3, counterexample to the claim as stated: with `min_quality = 52` and
`quality_step = 5`, an always-oversized encode and no timeout, the loop
performs an encode at quality 50, which is below `min_quality = 52`. -/
theorem c3_counterexample :
    processPhotoLoop (fun _ => 2) (fun _ => false) 1 52 5 95 0 25
      = some ([95, 90, 85, 80, 75, 70, 65, 60, 55, 50], 50, false)
    ∧ (50 : Int) ∈ [95, 90, 85, 80, 75, 70, 65, 60, 55, (50 : Int)]
    ∧ (50 : Int) < 52 := by decide

/-- C3, witness for the amended theorem at a concrete input. -/
theorem c3_witness :
    (1 : Int) ≤ 5
    ∧ processPhotoLoop (fun _ => 3) (fun _ => false) 2 50 5 95 0 30
        = some ([95, 90, 85, 80, 75, 70, 65, 60, 55, 50], 50, false)
    ∧ (([95, 90, 85, 80, 75, 70, 65, 60, 55, 50] : List Int)
        = (List.range ([95, 90, 85, 80, 75, 70, 65, 60, 55, 50] : List Int).length).map
            (fun k : Nat => 95 - (k : Int) * 5)
      ∧ List.Chain' (fun a b => b < a) ([95, 90, 85, 80, 75, 70, 65, 60, 55, 50] : List Int)
      ∧ ∀ x ∈ ([95, 90, 85, 80, 75, 70, 65, 60, 55, 50] : List Int),
          x = 95 ∨ (50 : Int) - 5 < x) :=
  ⟨by decide, by decide,
    c3_theorem (fun _ => 3) (fun _ => false) 2 50 5 0 30
      [95, 90, 85, 80, 75, 70, 65, 60, 55, 50] 50 false (by decide) (by decide)⟩

/-- C7 (amended): with `quality_step ≥ 1` the quality-search loop always
terminates, even when the timeout oracle never fires: any fuel of at least
`(quality − min_quality).toNat + 1` iterations suffices, because the quality
strictly decreases by `quality_step` per iteration until it reaches
`min_quality`.  The original claim's "for every configuration of min_quality
and quality_step" is false: with `quality_step = 0` the quality never
decreases and the loop never exits (see the counterexample). -/
theorem c7_theorem (sz : Int → Nat) (timedOutAt : Nat → Bool)
    (target_size_bytes min_quality quality_step q : Int) (iter fuel : Nat)
    (hst : 1 ≤ quality_step)
    (hfuel : (q - min_quality).toNat + 1 ≤ fuel) :
    (processPhotoLoop sz timedOutAt target_size_bytes min_quality quality_step
      q iter fuel).isSome :=
  processPhotoLoop_total sz timedOutAt target_size_bytes min_quality quality_step
    hst fuel q iter hfuel

/-- C7, counterexample to the claim as stated: with `quality_step = 0`,
`min_quality = 50`, an always-oversized encode and a clock that never
exceeds the (arbitrarily large) timeout, the loop never exits — no amount of
fuel makes it return. -/
theorem c7_counterexample :
    ¬ ∃ fuel : Nat,
      (processPhotoLoop (fun _ => 2) (fun _ => false) 1 50 0 95 0 fuel).isSome := by
  rintro ⟨fuel, h⟩
  rw [processPhotoLoop_stuck (fun _ => 2) 1 50 95 (by decide) (by decide) fuel 0] at h
  simp at h

/-- C7, witness for the amended theorem at a concrete input. -/
theorem c7_witness :
    (1 : Int) ≤ 5
    ∧ ((95 : Int) - 50).toNat + 1 ≤ 46
    ∧ (processPhotoLoop (fun _ => 9) (fun _ => false) 3 50 5 95 0 46).isSome :=
  ⟨by decide, by decide,
    c7_theorem (fun _ => 9) (fun _ => false) 3 50 5 95 0 46 (by decide) (by decide)⟩

/-! ### Claims C2, C4: the per-image tasks -/

/-- C2 (confirmed): when the engine reports `exceeded_timeout = true` for an
image (the loop exited on the elapsed-time check), `_process_photo_task`
leaves the partially-compressed artifact (the encode at the last loop
quality) at `problem-photos/<basename>` and the file at the image's bucket
destination is byte-identical to the original source.  The three path
distinctness hypotheses say the source file and the two output paths do not
alias, which is the operating setup (sources live under the input tree, the
two targets in distinct output subdirectories). -/
theorem c2_theorem (fs : Fs) (image_path : String) (gps_lat : Option ℚ)
    (output_dir missing_locations_dir problem_photos_dir : String)
    (target_size_mb : ℚ) (min_quality quality_step : Int)
    (enc : Int → Content) (timedOutAt : Nat → Bool) (fuel : Nat)
    (compression_time : ℚ) (c : Content) (l : List Int) (fq : Int)
    (hsrc : fs image_path = some c)
    (hloop : processPhotoLoop (fun q => (enc q).length) timedOutAt
      (pyInt (target_size_mb * 1024 * 1024)) min_quality quality_step 95 0 fuel
      = some (l, fq, true))
    (hdp : taskDestination image_path gps_lat output_dir missing_locations_dir
      ≠ joinPath problem_photos_dir (basename image_path))
    (hip1 : image_path ≠ taskDestination image_path gps_lat output_dir missing_locations_dir)
    (hip2 : image_path ≠ joinPath problem_photos_dir (basename image_path)) :
    (_process_photo_task fs image_path gps_lat output_dir missing_locations_dir
        target_size_mb min_quality quality_step problem_photos_dir enc timedOutAt
        fuel compression_time).exceeded_timeout = true
    ∧ (_process_photo_task fs image_path gps_lat output_dir missing_locations_dir
        target_size_mb min_quality quality_step problem_photos_dir enc timedOutAt
        fuel compression_time).fs (joinPath problem_photos_dir (basename image_path))
      = some (enc fq)
    ∧ (_process_photo_task fs image_path gps_lat output_dir missing_locations_dir
        target_size_mb min_quality quality_step problem_photos_dir enc timedOutAt
        fuel compression_time).fs
        (taskDestination image_path gps_lat output_dir missing_locations_dir)
      = fs image_path := by
  have hpp := _process_photo_of_loop fs image_path
    (taskDestination image_path gps_lat output_dir missing_locations_dir)
    target_size_mb min_quality quality_step enc timedOutAt fuel c l fq true hsrc hloop
  refine ⟨?_, ?_, ?_⟩ <;>
    simp only [_process_photo_task, hpp] <;>
    simp [fsWrite, fsErase, hsrc, hip1, hip2, hdp, Ne.symm hdp]

/-- C2, witness at a concrete input: a 3-byte source whose first encode (2
bytes) is still over the 1-byte target and whose clock fires at once. -/
theorem c2_witness :
    (fun p => if p = "photos/c.jpg" then some ([1, 2, 3] : Content) else none)
        "photos/c.jpg" = some [1, 2, 3]
    ∧ processPhotoLoop (fun q => (((fun (_ : Int) => ([7, 7] : Content)) q)).length)
        (fun _ => true) (pyInt ((1 / 1048576 : ℚ) * 1024 * 1024)) 50 5 95 0 5
        = some ([95], 95, true)
    ∧ taskDestination "photos/c.jpg" (some 1) "proc" "proc/missing-locations"
        ≠ joinPath "proc/problem-photos" (basename "photos/c.jpg")
    ∧ "photos/c.jpg" ≠ taskDestination "photos/c.jpg" (some 1) "proc" "proc/missing-locations"
    ∧ "photos/c.jpg" ≠ joinPath "proc/problem-photos" (basename "photos/c.jpg")
    ∧ ((_process_photo_task
          (fun p => if p = "photos/c.jpg" then some [1, 2, 3] else none)
          "photos/c.jpg" (some 1) "proc" "proc/missing-locations" (1 / 1048576)
          50 5 "proc/problem-photos" (fun _ => [7, 7]) (fun _ => true) 5
          0).exceeded_timeout = true
      ∧ (_process_photo_task
          (fun p => if p = "photos/c.jpg" then some [1, 2, 3] else none)
          "photos/c.jpg" (some 1) "proc" "proc/missing-locations" (1 / 1048576)
          50 5 "proc/problem-photos" (fun _ => [7, 7]) (fun _ => true) 5
          0).fs (joinPath "proc/problem-photos" (basename "photos/c.jpg"))
        = some [7, 7]
      ∧ (_process_photo_task
          (fun p => if p = "photos/c.jpg" then some [1, 2, 3] else none)
          "photos/c.jpg" (some 1) "proc" "proc/missing-locations" (1 / 1048576)
          50 5 "proc/problem-photos" (fun _ => [7, 7]) (fun _ => true) 5
          0).fs (taskDestination "photos/c.jpg" (some 1) "proc" "proc/missing-locations")
        = (fun p => if p = "photos/c.jpg" then some ([1, 2, 3] : Content) else none)
            "photos/c.jpg") := by
  have hsrc : (fun p => if p = "photos/c.jpg" then some ([1, 2, 3] : Content) else none)
      "photos/c.jpg" = some [1, 2, 3] := by decide
  have hloop : processPhotoLoop (fun q => (((fun (_ : Int) => ([7, 7] : Content)) q)).length)
      (fun _ => true) (pyInt ((1 / 1048576 : ℚ) * 1024 * 1024)) 50 5 95 0 5
      = some ([95], 95, true) := by
    rw [pyInt_tiny]; decide
  exact ⟨hsrc, hloop, by decide, by decide, by decide,
    c2_theorem (fun p => if p = "photos/c.jpg" then some [1, 2, 3] else none)
      "photos/c.jpg" (some 1) "proc" "proc/missing-locations" "proc/problem-photos"
      (1 / 1048576) 50 5 (fun _ => [7, 7]) (fun _ => true) 5 0 [1, 2, 3] [95] 95
      hsrc hloop (by decide) (by decide) (by decide)⟩

/-- C4 (confirmed): both per-image tasks compute the destination bucket
solely from the GPS-latitude value recorded at inspection time — missing
GPS goes to `<output_dir>/missing-locations/<basename>`, present GPS to
`<output_dir>/<basename>` — and the returned destination is this formula
regardless of the filesystem, the encoder, the clock, or the compression
outcome, so the bucket is never re-evaluated after compression. -/
theorem c4_theorem (fs : Fs) (image_path : String) (gps_lat : Option ℚ)
    (output_dir : String) (target_size_mb : ℚ) (min_quality quality_step : Int)
    (enc : Int → Content) (timedOutAt : Nat → Bool) (fuel : Nat)
    (compression_time : ℚ) :
    (_process_photo_task fs image_path gps_lat output_dir
        (joinPath output_dir "missing-locations") target_size_mb min_quality
        quality_step (joinPath output_dir "problem-photos") enc timedOutAt fuel
        compression_time).destination
      = (if gps_lat.isNone
          then joinPath (joinPath output_dir "missing-locations") (basename image_path)
          else joinPath output_dir (basename image_path))
    ∧ (_copy_photo_task fs image_path gps_lat output_dir
        (joinPath output_dir "missing-locations")).destination
      = (if gps_lat.isNone
          then joinPath (joinPath output_dir "missing-locations") (basename image_path)
          else joinPath output_dir (basename image_path)) := by
  constructor <;> cases gps_lat <;> rfl

/-! ### Claims C8, C9: metadata extraction and inspection -/

/-- C8 (confirmed): when EXIF extraction yields nothing (absent, unreadable,
or unsupported format — every such path of `_get_image_metadata` returns
`None`), `_get_image_metadata_with_size` still yields a record with the
file's size and the GPS-latitude field marked absent, and `inspect_library`
includes that record in the resulting table. -/
theorem c8_theorem (files : List String) (sampler : List String → Nat → List String)
    (meta : String → Option (List (String × ℚ))) (getsize : String → Nat) (p : String)
    (hmeta : meta p = none) (hmem : p ∈ files) :
    (_get_image_metadata_with_size meta getsize p).gpsLatitude = none
    ∧ (_get_image_metadata_with_size meta getsize p).sizeBytes = getsize p
    ∧ _get_image_metadata_with_size meta getsize p
        ∈ inspect_library files sampler meta getsize none := by
  refine ⟨?_, rfl, ?_⟩
  · simp [_get_image_metadata_with_size, _get_image_metadata, hmeta]
  · simp only [inspect_library]
    exact List.mem_map_of_mem _ hmem

/-- C8, witness at a concrete input. -/
theorem c8_witness :
    (fun (_ : String) => (none : Option (List (String × ℚ)))) "lib/a.jpg" = none
    ∧ "lib/a.jpg" ∈ ["lib/a.jpg"]
    ∧ ((_get_image_metadata_with_size (fun _ => none) (fun _ => 3) "lib/a.jpg").gpsLatitude
        = none
      ∧ (_get_image_metadata_with_size (fun _ => none) (fun _ => 3) "lib/a.jpg").sizeBytes
        = (fun (_ : String) => 3) "lib/a.jpg"
      ∧ _get_image_metadata_with_size (fun _ => none) (fun _ => 3) "lib/a.jpg"
          ∈ inspect_library ["lib/a.jpg"] (fun l k => List.take k l) (fun _ => none)
              (fun _ => 3) none) :=
  ⟨rfl, by decide,
    c8_theorem ["lib/a.jpg"] (fun l k => List.take k l) (fun _ => none) (fun _ => 3)
      "lib/a.jpg" rfl (by decide)⟩

/-- C9 (amended): for every positive sample cap `s`, `inspect_library`
applies the cap after full enumeration and returns a table of exactly
`min(s, N)` rows, for any sampler meeting `random.sample`'s contract (it
returns as many elements as requested).  The original claim's "for every
sample cap" is false: the code only samples when `sample_size > 0`, so a cap
of 0 is ignored and all `N` rows are returned (see the counterexample). -/
theorem c9_theorem (files : List String) (sampler : List String → Nat → List String)
    (meta : String → Option (List (String × ℚ))) (getsize : String → Nat) (s : Int)
    (hs : 0 < s)
    (hsampler : ∀ (l : List String) (k : Nat), k ≤ l.length → (sampler l k).length = k) :
    (inspect_library files sampler meta getsize (some s)).length
      = min s.toNat files.length := by
  simp only [inspect_library, if_pos hs, List.length_map]
  exact hsampler _ _ (Nat.min_le_right _ _)

/-- C9, counterexample to the claim as stated: a sample cap of 0 on a
one-file library returns 1 row, not `min(0, 1) = 0` rows. -/
theorem c9_counterexample :
    (inspect_library ["a.jpg"] (fun l k => List.take k l) (fun _ => none) (fun _ => 0)
        (some 0)).length = 1
    ∧ min (Int.toNat 0) (["a.jpg"] : List String).length = 0 := by decide

/-- C9, witness for the amended theorem at a concrete input. -/
theorem c9_witness :
    (0 : Int) < 2
    ∧ (inspect_library ["a.jpg", "b.jpg", "c.jpg"] (fun l k => List.take k l)
        (fun _ => none) (fun _ => 0) (some 2)).length
      = min (Int.toNat 2) (["a.jpg", "b.jpg", "c.jpg"] : List String).length :=
  ⟨by decide,
    c9_theorem ["a.jpg", "b.jpg", "c.jpg"] (fun l k => List.take k l) (fun _ => none)
      (fun _ => 0) 2 (by decide)
      (fun l k h => by simp [List.length_take, Nat.min_eq_left h])⟩

/-! ### Claim C6: process_library on an empty library -/

/-- C6: evaluation of `process_library` at the failing input.  On a library
with no enumerated images the inspection DataFrame is empty and has no
`image_size_mb` column, so the partition at src/photos.py line 287 raises
`KeyError` instead of returning the two maps — contradicting the claim (and
the spec's "the run always completes; no exceptions propagate"). -/
theorem c6_theorem :
    process_library (fun _ => none) [] "processed-photos" 2 50 5
      (fun _ _ => []) (fun _ _ => false) (fun _ => 0) 10
      = Except.error "KeyError: image_size_mb" := rfl

/-! ### Claim C10: main() keyword arguments -/

/-- C10 (confirmed): `main()` passes the keyword argument `parallel` to
`inspect_library` (whose parameters are `dir`, `show_progress`,
`sample_size`), so its very first call raises `TypeError` before any image
is inspected or processed; the later `process_library` call would likewise
reject its `parallel`/`max_workers` keywords. -/
theorem c10_theorem :
    main_model = Except.error
        "TypeError: inspect_library() got an unexpected keyword argument parallel"
    ∧ checkKeywords "process_library" process_library_params
        ["parallel", "max_workers", "target_size_mb", "min_quality", "quality_step",
         "sample_size"]
      = Except.error
        "TypeError: process_library() got an unexpected keyword argument parallel" := by
  constructor <;> rfl

/-! ### Lemmas for process_library: what each phase touches -/

theorem _process_photo_untouched (fs : Fs) (image_path output_path : String)
    (target_size_mb : ℚ) (min_quality quality_step : Int) (enc : Int → Content)
    (timedOutAt : Nat → Bool) (fuel : Nat) (p : String) (hp : p ≠ output_path) :
    (_process_photo fs image_path output_path target_size_mb min_quality quality_step
      enc timedOutAt fuel).1 p = fs p := by
  unfold _process_photo
  split
  · rfl
  · split
    · exact fsWrite_ne _ _ _ _ hp
    · rfl

theorem _process_photo_task_untouched (fs : Fs) (image_path : String)
    (gps_lat : Option ℚ) (output_dir missing_locations_dir : String)
    (target_size_mb : ℚ) (min_quality quality_step : Int)
    (problem_photos_dir : String) (enc : Int → Content) (timedOutAt : Nat → Bool)
    (fuel : Nat) (ct : ℚ) (p : String)
    (hd : p ≠ taskDestination image_path gps_lat output_dir missing_locations_dir)
    (hp : p ≠ joinPath problem_photos_dir (basename image_path)) :
    (_process_photo_task fs image_path gps_lat output_dir missing_locations_dir
      target_size_mb min_quality quality_step problem_photos_dir enc timedOutAt
      fuel ct).fs p = fs p := by
  have hphoto := _process_photo_untouched fs image_path
    (taskDestination image_path gps_lat output_dir missing_locations_dir)
    target_size_mb min_quality quality_step enc timedOutAt fuel p hd
  simp only [_process_photo_task]
  split
  · split
    · exact hphoto
    · split
      · rw [fsErase_ne _ _ _ hd, fsWrite_ne _ _ _ _ hp]
        exact hphoto
      · rw [fsWrite_ne _ _ _ _ hd, fsErase_ne _ _ _ hd, fsWrite_ne _ _ _ _ hp]
        exact hphoto
  · exact hphoto

theorem runCopyTasks_preserved (output_dir missing_locations_dir : String) :
    ∀ (l : List ImageRecord) (st : RunState) (p : String),
      (∀ r ∈ l, destinationOf output_dir missing_locations_dir r ≠ p) →
      (runCopyTasks output_dir missing_locations_dir l st).fs p = st.fs p
      ∧ dget (runCopyTasks output_dir missing_locations_dir l st).compression_times p
        = dget st.compression_times p
      ∧ dget (runCopyTasks output_dir missing_locations_dir l st).exceeded_timeout_flags p
        = dget st.exceeded_timeout_flags p := by
  intro l
  induction l with
  | nil => intro st p _; exact ⟨rfl, rfl, rfl⟩
  | cons a rest ih =>
    intro st p h
    have ha : destinationOf output_dir missing_locations_dir a ≠ p := h a (by simp)
    have hrest : ∀ r ∈ rest, destinationOf output_dir missing_locations_dir r ≠ p :=
      fun r hr => h r (by simp [hr])
    simp only [runCopyTasks]
    obtain ⟨h1, h2, h3⟩ := ih (recordTask st (_copy_photo_task st.fs a.imagePath
      a.gpsLatitude output_dir missing_locations_dir)) p hrest
    refine ⟨?_, ?_, ?_⟩
    · rw [h1]
      show (_copy_photo_task st.fs a.imagePath a.gpsLatitude output_dir
        missing_locations_dir).fs p = st.fs p
      simp only [_copy_photo_task]
      split
      · rfl
      · exact fsWrite_ne _ _ _ _ (Ne.symm ha)
    · rw [h2]
      exact dget_cons_ne _ _ _ _ ha
    · rw [h3]
      exact dget_cons_ne _ _ _ _ ha

theorem runCopyTasks_hit (output_dir missing_locations_dir : String) :
    ∀ (l : List ImageRecord) (st : RunState) (r : ImageRecord) (c : Content),
      r ∈ l →
      (l.map (destinationOf output_dir missing_locations_dir)).Nodup →
      (∀ r' ∈ l, destinationOf output_dir missing_locations_dir r' ≠ r.imagePath) →
      st.fs r.imagePath = some c →
      (runCopyTasks output_dir missing_locations_dir l st).fs
          (destinationOf output_dir missing_locations_dir r) = some c
      ∧ dget (runCopyTasks output_dir missing_locations_dir l st).compression_times
          (destinationOf output_dir missing_locations_dir r) = some 0
      ∧ dget (runCopyTasks output_dir missing_locations_dir l st).exceeded_timeout_flags
          (destinationOf output_dir missing_locations_dir r) = some false := by
  intro l
  induction l with
  | nil => intro st r c hmem; simp at hmem
  | cons a rest ih =>
    intro st r c hmem hnodup hsrcdisj hsrc
    rw [List.map_cons, List.nodup_cons] at hnodup
    obtain ⟨hnotin, hnodup_rest⟩ := hnodup
    rcases List.mem_cons.mp hmem with rfl | hmem'
    · have hdisj : ∀ r' ∈ rest,
          destinationOf output_dir missing_locations_dir r'
            ≠ destinationOf output_dir missing_locations_dir r := by
        intro r' hr' hcontra
        exact hnotin (hcontra ▸ List.mem_map_of_mem _ hr')
      simp only [runCopyTasks]
      obtain ⟨h1, h2, h3⟩ := runCopyTasks_preserved output_dir missing_locations_dir
        rest (recordTask st (_copy_photo_task st.fs r.imagePath r.gpsLatitude
          output_dir missing_locations_dir))
        (destinationOf output_dir missing_locations_dir r) hdisj
      refine ⟨?_, ?_, ?_⟩
      · rw [h1]
        show (_copy_photo_task st.fs r.imagePath r.gpsLatitude output_dir
          missing_locations_dir).fs (destinationOf output_dir missing_locations_dir r)
          = some c
        simp only [_copy_photo_task, hsrc]
        exact fsWrite_self _ _ _
      · rw [h2]
        exact dget_cons_self _ _ _
      · rw [h3]
        exact dget_cons_self _ _ _
    · have hsrc' : (recordTask st (_copy_photo_task st.fs a.imagePath a.gpsLatitude
          output_dir missing_locations_dir)).fs r.imagePath = some c := by
        show (_copy_photo_task st.fs a.imagePath a.gpsLatitude output_dir
          missing_locations_dir).fs r.imagePath = some c
        simp only [_copy_photo_task]
        split
        · exact hsrc
        · rw [fsWrite_ne]
          · exact hsrc
          · exact Ne.symm (hsrcdisj a (by simp))
      simp only [runCopyTasks]
      exact ih (recordTask st (_copy_photo_task st.fs a.imagePath a.gpsLatitude
          output_dir missing_locations_dir)) r c hmem' hnodup_rest
        (fun r' hr' => hsrcdisj r' (by simp [hr'])) hsrc'

theorem runCompressTasks_preserved
    (output_dir missing_locations_dir problem_photos_dir : String)
    (target_size_mb : ℚ) (min_quality quality_step : Int)
    (enc : String → Int → Content) (timedOutAt : String → Nat → Bool)
    (elapsedOf : String → ℚ) (fuel : Nat) :
    ∀ (l : List ImageRecord) (st : RunState) (p : String),
      (∀ r ∈ l, destinationOf output_dir missing_locations_dir r ≠ p
        ∧ joinPath problem_photos_dir (basename r.imagePath) ≠ p) →
      (runCompressTasks output_dir missing_locations_dir problem_photos_dir
          target_size_mb min_quality quality_step enc timedOutAt elapsedOf fuel
          l st).fs p = st.fs p
      ∧ dget (runCompressTasks output_dir missing_locations_dir problem_photos_dir
          target_size_mb min_quality quality_step enc timedOutAt elapsedOf fuel
          l st).compression_times p = dget st.compression_times p
      ∧ dget (runCompressTasks output_dir missing_locations_dir problem_photos_dir
          target_size_mb min_quality quality_step enc timedOutAt elapsedOf fuel
          l st).exceeded_timeout_flags p = dget st.exceeded_timeout_flags p := by
  intro l
  induction l with
  | nil => intro st p _; exact ⟨rfl, rfl, rfl⟩
  | cons a rest ih =>
    intro st p h
    have ha := h a (by simp)
    have hrest : ∀ r ∈ rest, destinationOf output_dir missing_locations_dir r ≠ p
        ∧ joinPath problem_photos_dir (basename r.imagePath) ≠ p :=
      fun r hr => h r (by simp [hr])
    simp only [runCompressTasks]
    obtain ⟨h1, h2, h3⟩ := ih (recordTask st (_process_photo_task st.fs a.imagePath
      a.gpsLatitude output_dir missing_locations_dir target_size_mb min_quality
      quality_step problem_photos_dir (enc a.imagePath) (timedOutAt a.imagePath)
      fuel (elapsedOf a.imagePath))) p hrest
    refine ⟨?_, ?_, ?_⟩
    · rw [h1]
      exact _process_photo_task_untouched st.fs a.imagePath a.gpsLatitude output_dir
        missing_locations_dir target_size_mb min_quality quality_step
        problem_photos_dir (enc a.imagePath) (timedOutAt a.imagePath) fuel
        (elapsedOf a.imagePath) p (Ne.symm ha.1) (Ne.symm ha.2)
    · rw [h2]
      exact dget_cons_ne _ _ _ _ ha.1
    · rw [h3]
      exact dget_cons_ne _ _ _ _ ha.1

/-! ### Claim C5: compliant images under process_library -/

/-- C5 (amended): provided no two processed images collide on a destination
path, no problem-photos path collides with the image's destination, and no
destination aliases a source path, every already-compliant image (inspected
size ≤ target) ends up with a byte-identical copy of its input at its bucket
destination, and the returned maps record elapsed time 0 and timed-out false
under that destination.  The original unconditional claim is false: with two
sources sharing a basename and bucket, the later copy overwrites the earlier
one ("last writer wins"), see the counterexample. -/
theorem c5_theorem (fs0 : Fs) (records : List ImageRecord) (output_dir : String)
    (target_size_mb : ℚ) (min_quality quality_step : Int)
    (enc : String → Int → Content) (timedOutAt : String → Nat → Bool)
    (elapsedOf : String → ℚ) (fuel : Nat) (r : ImageRecord) (c : Content)
    (hmem : r ∈ records)
    (hcompliant : sizeMB r ≤ target_size_mb)
    (hsrc : fs0 r.imagePath = some c)
    (hnodup : (records.map (bucketDest output_dir)).Nodup)
    (hsources : ∀ x ∈ records, ∀ y ∈ records, bucketDest output_dir x ≠ y.imagePath)
    (hproblem : ∀ x ∈ records, problemDestOf output_dir x ≠ bucketDest output_dir r) :
    ∃ st, process_library fs0 records output_dir target_size_mb min_quality
        quality_step enc timedOutAt elapsedOf fuel = Except.ok st
      ∧ st.fs (bucketDest output_dir r) = some c
      ∧ dget st.compression_times (bucketDest output_dir r) = some 0
      ∧ dget st.exceeded_timeout_flags (bucketDest output_dir r) = some false := by
  have hne : records.isEmpty = false := by
    cases records with
    | nil => simp at hmem
    | cons a t => rfl
  have hcompl_mem : r ∈ records.filter (fun x => decide (sizeMB x ≤ target_size_mb)) :=
    List.mem_filter.mpr ⟨hmem, decide_eq_true hcompliant⟩
  have hsubC := List.filter_sublist (l := records) (p := fun x => decide (sizeMB x ≤ target_size_mb))
  have hsubN := List.filter_sublist (l := records) (p := fun x => decide (target_size_mb < sizeMB x))
  have hnodupC : ((records.filter (fun x => decide (sizeMB x ≤ target_size_mb))).map
      (bucketDest output_dir)).Nodup :=
    List.Nodup.sublist (hsubC.map (bucketDest output_dir)) hnodup
  obtain ⟨hf1, ht1, hg1⟩ := runCopyTasks_hit output_dir
    (joinPath output_dir "missing-locations")
    (records.filter (fun x => decide (sizeMB x ≤ target_size_mb)))
    ⟨fs0, [], []⟩ r c hcompl_mem hnodupC
    (fun x hx => hsources x (List.mem_of_mem_filter hx) r hmem) hsrc
  obtain ⟨hf2, ht2, hg2⟩ := runCompressTasks_preserved output_dir
    (joinPath output_dir "missing-locations") (joinPath output_dir "problem-photos")
    target_size_mb min_quality quality_step enc timedOutAt elapsedOf fuel
    (records.filter (fun x => decide (target_size_mb < sizeMB x)))
    (runCopyTasks output_dir (joinPath output_dir "missing-locations")
      (records.filter (fun x => decide (sizeMB x ≤ target_size_mb))) ⟨fs0, [], []⟩)
    (destinationOf output_dir (joinPath output_dir "missing-locations") r)
    (by
      intro x hx
      have hxrec := List.mem_of_mem_filter hx
      have hxover : target_size_mb < sizeMB x :=
        of_decide_eq_true (List.mem_filter.mp hx).2
      have hxr : x ≠ r := by
        intro hcontra
        rw [hcontra] at hxover
        exact absurd hxover (not_lt.mpr hcompliant)
      constructor
      · intro hcontra
        exact hxr (List.inj_on_of_nodup_map hnodup hxrec hmem hcontra)
      · exact hproblem x hxrec)
  refine ⟨runCompressTasks output_dir (joinPath output_dir "missing-locations")
      (joinPath output_dir "problem-photos") target_size_mb min_quality quality_step
      enc timedOutAt elapsedOf fuel
      (records.filter (fun x => decide (target_size_mb < sizeMB x)))
      (runCopyTasks output_dir (joinPath output_dir "missing-locations")
        (records.filter (fun x => decide (sizeMB x ≤ target_size_mb))) ⟨fs0, [], []⟩),
    ?_, ?_, ?_, ?_⟩
  · unfold process_library
    rw [if_neg (by simp [hne])]
  · simp only [bucketDest]
    rw [hf2]
    exact hf1
  · simp only [bucketDest]
    rw [ht2]
    exact ht1
  · simp only [bucketDest]
    rw [hg2]
    exact hg1

/-- C5, counterexample to the claim as stated: two compliant sources
`srcA/x.jpg` (content `[7]`) and `srcB/x.jpg` (content `[8]`) share the
basename `x.jpg` and the GPS-present bucket, so both map to `out/x.jpg`; the
later copy wins and the first image's destination does not hold a copy of
its input. -/
theorem c5_counterexample :
    Except.map (fun st => st.fs "out/x.jpg")
        (process_library
          (fun p => if p = "srcA/x.jpg" then some [7] else
            if p = "srcB/x.jpg" then some [8] else none)
          [⟨"srcA/x.jpg", some 1, 1⟩, ⟨"srcB/x.jpg", some 1, 1⟩]
          "out" 1 50 5 (fun _ _ => []) (fun _ _ => false) (fun _ => 0) 10)
      = Except.ok (some [8])
    ∧ sizeMB ⟨"srcA/x.jpg", some 1, 1⟩ ≤ 1
    ∧ bucketDest "out" ⟨"srcA/x.jpg", some 1, 1⟩ = "out/x.jpg"
    ∧ (fun p => if p = "srcA/x.jpg" then some [7] else
        if p = "srcB/x.jpg" then some [8] else none) "srcA/x.jpg" = some ([7] : Content)
    ∧ (some ([8] : Content) ≠ some [7]) := by
  have hA : (decide (sizeMB ⟨"srcA/x.jpg", some 1, 1⟩ ≤ (1 : ℚ))) = true :=
    decide_eq_true (by norm_num [sizeMB])
  have hB : (decide (sizeMB ⟨"srcB/x.jpg", some 1, 1⟩ ≤ (1 : ℚ))) = true :=
    decide_eq_true (by norm_num [sizeMB])
  have hA' : (decide ((1 : ℚ) < sizeMB ⟨"srcA/x.jpg", some 1, 1⟩)) = false :=
    decide_eq_false (by norm_num [sizeMB])
  have hB' : (decide ((1 : ℚ) < sizeMB ⟨"srcB/x.jpg", some 1, 1⟩)) = false :=
    decide_eq_false (by norm_num [sizeMB])
  have hfilterC : List.filter (fun x => decide (sizeMB x ≤ (1 : ℚ)))
      [(⟨"srcA/x.jpg", some 1, 1⟩ : ImageRecord), ⟨"srcB/x.jpg", some 1, 1⟩]
      = [(⟨"srcA/x.jpg", some 1, 1⟩ : ImageRecord), ⟨"srcB/x.jpg", some 1, 1⟩] := by
    rw [List.filter_cons, List.filter_cons, List.filter_nil, if_pos hB, if_pos hA]
  have hfilterN : List.filter (fun x => decide ((1 : ℚ) < sizeMB x))
      [(⟨"srcA/x.jpg", some 1, 1⟩ : ImageRecord), ⟨"srcB/x.jpg", some 1, 1⟩]
      = [] := by
    rw [List.filter_cons, List.filter_cons, List.filter_nil,
      if_neg (by simp [hA', hB']), if_neg (by simp [hA', hB'])]
  refine ⟨?_, by norm_num [sizeMB], by decide, by decide, by decide⟩
  unfold process_library
  rw [if_neg (by decide)]
  rw [hfilterC, hfilterN]
  rfl

/-- C5, witness for the amended theorem at a concrete one-image library. -/
theorem c5_witness :
    sizeMB ⟨"src/a.jpg", none, 1⟩ ≤ 1
    ∧ (fun p => if p = "src/a.jpg" then some ([5] : Content) else none) "src/a.jpg"
      = some [5]
    ∧ ∃ st, process_library
          (fun p => if p = "src/a.jpg" then some [5] else none)
          [⟨"src/a.jpg", none, 1⟩] "out" 1 50 5 (fun _ _ => []) (fun _ _ => false)
          (fun _ => 0) 10 = Except.ok st
        ∧ st.fs (bucketDest "out" ⟨"src/a.jpg", none, 1⟩) = some [5]
        ∧ dget st.compression_times (bucketDest "out" ⟨"src/a.jpg", none, 1⟩) = some 0
        ∧ dget st.exceeded_timeout_flags (bucketDest "out" ⟨"src/a.jpg", none, 1⟩)
          = some false :=
  ⟨by norm_num [sizeMB], by decide,
    c5_theorem (fun p => if p = "src/a.jpg" then some [5] else none)
      [⟨"src/a.jpg", none, 1⟩] "out" 1 50 5 (fun _ _ => []) (fun _ _ => false)
      (fun _ => 0) 10 ⟨"src/a.jpg", none, 1⟩ [5] (by decide)
      (by norm_num [sizeMB]) (by decide) (by decide) (by decide) (by decide)⟩
